import Mathlib

/-!
Verification of the pixel-board server core (`src/backend/server.js`).

The server keeps a fixed 400-cell grid, a registry of connected users
(JS `Map` from user id to `{color, connectedAt, lastHeartbeat, ws}`),
and a set of colors in use.  We embed that state shallowly: the grid is
a `List Cell`, the registry an insertion-ordered association list with
unique keys (mirroring `Map` semantics), the color set a duplicate-free
`List String`.  Handlers return the new state together with the list of
protocol events they emitted (broadcasts and unicasts), in order.

JavaScript `cellId` values coming out of `JSON.parse` are modelled by
`CellId`: a finite number (as a rational, which is exact for every value
the claims exercise), `undefined` for a missing field, or any other JSON
value by its two observables — the property-key string it converts to
when indexing the array, and its numeric coercion as used by the
comparison guards.  The comparisons `cellId < 0` and
`cellId >= GRID_SIZE` and the array lookup `state.grid[cellId]` follow
JS semantics: comparisons against `undefined` or a NaN coercion are
false, a lookup at a non-integer or missing index yields `undefined` (so
that the later `cell.ownerId` access throws), and a lookup at the
canonical decimal key of an in-range index — for example the string
`"3"` — yields that element.  A thrown exception is an `Except.error`
which the connection's message handler catches.
-/

namespace Grid

set_option maxRecDepth 100000

/-- `GRID_SIZE` from `server.js`: 400 cells (20 by 20). -/
def GRID_SIZE : Nat := 400

/-- `CONNECTION_TIMEOUT` from `server.js`: 35000 ms. -/
def CONNECTION_TIMEOUT : Nat := 35000

/-- One grid cell: `{ id, ownerId, color, updatedAt }` from `initializeGrid`. -/
structure Cell where
  id : Nat
  ownerId : Option String
  color : Option String
  updatedAt : Option Nat
deriving DecidableEq

/-- One registry entry: `{ color, connectedAt, lastHeartbeat, ws }`.
The transport handle is abstracted to its only observed property,
`ws.readyState === WebSocket.OPEN`. -/
structure User where
  color : String
  connectedAt : Nat
  lastHeartbeat : Nat
  wsOpen : Bool
deriving DecidableEq

/-- The `state` object of `server.js`: grid, users map, used-color set. -/
structure ServerState where
  grid : List Cell
  users : List (String × User)
  usedColors : List String
deriving DecidableEq

/-- A JS value arriving as `data.cellId`.  `num` is a finite number and
`undef` a missing field.  `str s v` stands for every other JSON value by
its two observables: `s` is the property-key string it converts to when
used as an array index (a plain string is itself; an array such as
`[3]` joins to `"3"`; an object gives `"[object Object]"`; `null` gives
`"null"`), and `v` is its JS numeric coercion as consumed by the `<`
and `>=` guards, with `none` for NaN.  Like the random draws, `v` is
supplied alongside the value rather than recomputed, since no claim
depends on reimplementing `ToNumber`; concrete instances use the true
coercion (for `"3"`, `some 3`). -/
inductive CellId where
  | num (q : ℚ)
  | undef
  | str (s : String) (v : Option ℚ)
deriving DecidableEq

/-- Protocol events, in emission order.  `cellUpdated` and `usersCount`
are broadcasts (`broadcast` in the source); the rest are unicasts to one
client (`sendToClient`). -/
inductive Event where
  | initState (userId : String) (color : String) (grid : List Cell)
      (connectedUsers : Nat)
  | cellUpdated (cellId : Nat) (ownerId : String) (color : String)
      (updatedAt : Nat)
  | claimRejected (cellId : CellId) (reason : String) (message : String)
  | usersCount (count : Nat)
  | pong
  | errMsg (message : String)
deriving DecidableEq

/-- Whether an event is delivered through `broadcast` (fan-out to all
sessions) rather than `sendToClient` (unicast to the requester). -/
def Event.isBroadcast : Event → Bool
  | .cellUpdated _ _ _ _ => true
  | .usersCount _ => true
  | _ => false

/-- JS `Map.prototype.get` on the users map. -/
def mapLookup : List (String × User) → String → Option User
  | [], _ => none
  | (k, v) :: rest, key => if k = key then some v else mapLookup rest key

/-- JS `Map.prototype.set`: overwrite the entry in place if the key
exists, else append (insertion order preserved). -/
def mapSet : List (String × User) → String → User → List (String × User)
  | [], key, v => [(key, v)]
  | (k, w) :: rest, key, v =>
      if k = key then (key, v) :: rest else (k, w) :: mapSet rest key v

/-- JS `Map.prototype.delete`. -/
def mapDelete (m : List (String × User)) (key : String) :
    List (String × User) :=
  m.filter (fun p => p.1 ≠ key)

/-- JS `Set.prototype.add` on the color set. -/
def setAdd (s : List String) (c : String) : List String :=
  if c ∈ s then s else s ++ [c]

/-- JS `Set.prototype.delete` on the color set. -/
def setDelete (s : List String) (c : String) : List String :=
  s.filter (fun x => x ≠ c)

/-- The JS comparison `cellId < 0`: numeric, false when a side is NaN
(`undefined` coerces to NaN; other values compare via their numeric
coercion). -/
def ltZero : CellId → Bool
  | .num q => decide (q < 0)
  | .undef => false
  | .str _ v =>
      match v with
      | some q => decide (q < 0)
      | none => false

/-- The JS comparison `cellId >= GRID_SIZE`: numeric, false on NaN. -/
def geSize : CellId → Bool
  | .num q => decide ((GRID_SIZE : ℚ) ≤ q)
  | .undef => false
  | .str _ v =>
      match v with
      | some q => decide ((GRID_SIZE : ℚ) ≤ q)
      | none => false

/-- Value of a list of decimal digit characters, `none` on a non-digit. -/
def digitsValGo (acc : Nat) : List Char → Option Nat
  | [] => some acc
  | c :: rest =>
      if c.isDigit then digitsValGo (acc * 10 + (c.toNat - 48)) rest
      else none

/-- The natural number denoted by a non-empty all-digit string. -/
def strToNat (s : String) : Option Nat :=
  match s.data with
  | [] => none
  | cs => digitsValGo 0 cs

/-- JS array indexing `state.grid[cellId]`: an element when the index
is an integer within bounds, or a property-key string that is the
canonical decimal form of an in-range index (so `"3"` hits element 3
but `"03"`, `"3.5"`, `"-1"` or `"450"` do not); otherwise `undefined`
(`none`). -/
def gridIndex (len : Nat) : CellId → Option Nat
  | .num q =>
      if q.den = 1 ∧ 0 ≤ q.num ∧ q.num < (len : Int) then some q.num.toNat
      else none
  | .undef => none
  | .str s _ =>
      match strToNat s with
      | some k => if s = toString k ∧ k < len then some k else none
      | none => none

/-- `state.grid[cellId]` as an optional cell. -/
def gridLookup (grid : List Cell) (c : CellId) : Option Cell :=
  (gridIndex grid.length c).bind (fun i => grid[i]?)

/-- `initializeGrid` from `server.js`: 400 cells, all fields null. -/
def initializeGrid : List Cell :=
  (List.range GRID_SIZE).map (fun i => ⟨i, none, none, none⟩)

/-- `getConnectedUsersCount` from `server.js`: iterate the users map,
counting entries whose `ws.readyState === WebSocket.OPEN`. -/
def getConnectedUsersCount (s : ServerState) : Nat :=
  s.users.foldl (fun count p => if p.2.wsOpen then count + 1 else count) 0

/-- `handleClaimCell(userId, cellId, ws)` from `server.js`.  `now` is
`Date.now()` at the commit.  The result is `Except.error evts` when the
body throws (the `cell.ownerId` access on an `undefined` cell), carrying
the events already sent; otherwise the new state and its events. -/
def handleClaimCell (userId : String) (cellId : CellId) (now : Nat)
    (s : ServerState) : Except (List Event) (ServerState × List Event) :=
  if ltZero cellId || geSize cellId then
    .ok (s, [.errMsg "Invalid cell ID"])
  else
    match gridLookup s.grid cellId, mapLookup s.users userId with
    | _, none => .ok (s, [.errMsg "User not found"])
    | none, some _ => .error []
    | some cell, some user =>
      if cell.ownerId = some userId then
        .ok (s, [])
      else if cell.ownerId ≠ none then
        .ok (s, [.claimRejected cellId "already_claimed"
                   "Cell already claimed by another user"])
      else
        match gridIndex s.grid.length cellId with
        | none => .error []
        | some idx =>
          let newCell : Cell :=
            { cell with ownerId := some userId, color := some user.color,
                        updatedAt := some now }
          let s' : ServerState := { s with grid := s.grid.set idx newCell }
          .ok (s', [.cellUpdated cell.id userId user.color now])

/-- `handleDisconnect(userId)` from `server.js`: if registered, release
the color, remove the user, broadcast the new `users_count`. -/
def handleDisconnect (userId : String) (s : ServerState) :
    ServerState × List Event :=
  match mapLookup s.users userId with
  | none => (s, [])
  | some user =>
    let s' : ServerState :=
      { s with usedColors := setDelete s.usedColors user.color,
               users := mapDelete s.users userId }
    (s', [.usersCount (getConnectedUsersCount s')])

/-- The ids marked for eviction by `cleanupDeadConnections`: transport
not open, or silent longer than `CONNECTION_TIMEOUT`. -/
def deadIds (now : Nat) (s : ServerState) : List String :=
  (s.users.filter (fun p =>
    !p.2.wsOpen || decide ((now : Int) - p.2.lastHeartbeat
      > (CONNECTION_TIMEOUT : Int)))).map (fun p => p.1)

/-- `cleanupDeadConnections` from `server.js`: collect the dead ids,
then `handleDisconnect` each in turn, events concatenating in order. -/
def cleanupDeadConnections (now : Nat) (s : ServerState) :
    ServerState × List Event :=
  (deadIds now s).foldl
    (fun acc uid =>
      let r := handleDisconnect uid acc.1
      (r.1, acc.2 ++ r.2))
    (s, [])

/-- One random draw of `generateNiceColor`, with `Math.floor(Math.random()*k)`
results supplied by an oracle triple `(hue, satOff, lightOff)`:
`hsl(hue, 65+satOff%, 45+lightOff%)` as a template string. -/
def candidateColor (r : Nat × Nat × Nat) : String :=
  "hsl(" ++ toString r.1 ++ ", " ++ toString (65 + r.2.1) ++ "%, "
    ++ toString (45 + r.2.2) ++ "%)"

/-- The do-while loop of `generateNiceColor`: at draw `k` with `fuel`
redraws still allowed (`attempts < maxAttempts` is `fuel > 0`), keep the
candidate unless it collides and a redraw is allowed. -/
def genColorGo (used : List String) (cand : Nat → String) :
    Nat → Nat → String
  | k, 0 => cand k
  | k, fuel + 1 => if cand k ∈ used then genColorGo used cand (k + 1) fuel
                   else cand k

/-- `generateNiceColor` from `server.js`: 50 draws at most
(`maxAttempts = 50`, so 49 redraws after the first). -/
def generateNiceColor (used : List String) (cand : Nat → String) : String :=
  genColorGo used cand 0 49

/-- `getRandomColor` from `server.js`: generate, record in the in-use
set, return. -/
def getRandomColor (cand : Nat → String) (s : ServerState) :
    String × ServerState :=
  let color := generateNiceColor s.usedColors cand
  (color, { s with usedColors := setAdd s.usedColors color })

/-- A parsed inbound frame.  `malformed` stands for input on which
`JSON.parse` throws; `unknown t` is a frame whose `type` matches no case. -/
inductive ClientMsg where
  | join
  | claimCell (cellId : CellId)
  | ping
  | unknown (t : String)
  | malformed

/-- The `if (user) user.lastHeartbeat = Date.now()` step of the message
handler. -/
def touch (userId : String) (now : Nat) (s : ServerState) : ServerState :=
  match mapLookup s.users userId with
  | none => s
  | some u =>
      { s with users := mapSet s.users userId { u with lastHeartbeat := now } }

/-- The `ws.on('message')` handler from `server.js`: parse, refresh the
heartbeat, dispatch; any exception is caught and answered with
`{type:'error', message:'Invalid message format'}`. -/
def handleMessage (userId : String) (msg : ClientMsg) (now : Nat)
    (s : ServerState) : ServerState × List Event :=
  match msg with
  | .malformed => (s, [.errMsg "Invalid message format"])
  | .join => (touch userId now s, [])
  | .ping => (touch userId now s, [.pong])
  | .unknown _ => (touch userId now s, [])
  | .claimCell cellId =>
      let s1 := touch userId now s
      match handleClaimCell userId cellId now s1 with
      | .ok (s2, evts) => (s2, evts)
      | .error evts => (s1, evts ++ [.errMsg "Invalid message format"])

/-- The `wss.on('connection')` handler: allocate a color, register the
session (heartbeat = now, transport open), unicast `init_state`, then
broadcast the new `users_count`.  The generated `userId` and the random
draws are oracle inputs. -/
def handleConnection (userId : String) (cand : Nat → String) (now : Nat)
    (s : ServerState) : ServerState × List Event :=
  let r := getRandomColor cand s
  let newUser : User :=
    { color := r.1, connectedAt := now, lastHeartbeat := now, wsOpen := true }
  let s' : ServerState :=
    { r.2 with users := mapSet r.2.users userId newUser }
  (s', [.initState userId r.1 s'.grid (getConnectedUsersCount s'),
        .usersCount (getConnectedUsersCount s')])

/-- Mark a session's transport as no longer open (the peer or network
closed the socket; `readyState` stops being `OPEN`). -/
def transportClose (userId : String) (s : ServerState) : ServerState :=
  { s with users := s.users.map (fun p =>
      if p.1 = userId then (p.1, { p.2 with wsOpen := false }) else p) }

/-- One externally triggered server operation. -/
inductive Op where
  | connect (userId : String) (cand : Nat → String) (now : Nat)
  | message (userId : String) (msg : ClientMsg) (now : Nat)
  | close (userId : String)
  | wsError (userId : String)
  | cleanup (now : Nat)
  | transportDrop (userId : String)

/-- Apply one operation: `connect` is the connection handler, `message`
the message handler, `close` and `wsError` both call `handleDisconnect`
(per the `ws.on('close')` and `ws.on('error')` handlers), `cleanup` the
periodic sweep, `transportDrop` a socket leaving the OPEN state. -/
def applyOp (op : Op) (s : ServerState) : ServerState × List Event :=
  match op with
  | .connect uid cand now => handleConnection uid cand now s
  | .message uid msg now => handleMessage uid msg now s
  | .close uid => handleDisconnect uid s
  | .wsError uid => handleDisconnect uid s
  | .cleanup now => cleanupDeadConnections now s
  | .transportDrop uid => (transportClose uid s, [])

/-- Run a sequence of operations, discarding events. -/
def run (ops : List Op) (s : ServerState) : ServerState :=
  ops.foldl (fun st op => (applyOp op st).1) s

/-- The server state right after `initializeGrid()` at startup. -/
def initState : ServerState :=
  { grid := initializeGrid, users := [], usedColors := [] }

/-- The all-or-nothing cell invariant: owner, color and update time are
null together or non-null together. -/
def cellInv (c : Cell) : Prop :=
  (c.ownerId = none ↔ c.color = none) ∧ (c.ownerId = none ↔ c.updatedAt = none)

/-- The live count as the spec words it (for comparison with the code's
`getConnectedUsersCount`): sessions whose transport-handle is open AND
whose last liveness signal is within the timeout window. -/
def specLiveCount (now : Nat) (s : ServerState) : Nat :=
  (s.users.filter (fun p => p.2.wsOpen
    && decide ((now : Int) - p.2.lastHeartbeat
      ≤ (CONNECTION_TIMEOUT : Int)))).length

/-- A registry entry with the given color and heartbeat, transport open. -/
def mkUser (color : String) (hb : Nat) : User :=
  { color := color, connectedAt := hb, lastHeartbeat := hb, wsOpen := true }

/-- Cell 0 as owned by session `u_a`. -/
def cOwned : Cell :=
  { id := 0, ownerId := some "u_a", color := some "hsl(10, 70%, 50%)",
    updatedAt := some 5 }

/-- A state where `u_a` owns cell 0 and a different session `u_b` is
registered with an open transport. -/
def sOwned : ServerState :=
  { grid := initializeGrid.set 0 cOwned,
    users := [("u_b", mkUser "hsl(20, 70%, 50%)" 0)],
    usedColors := ["hsl(20, 70%, 50%)"] }

/-- A state where `u_a` owns cell 0 and is itself registered. -/
def sSelf : ServerState :=
  { grid := initializeGrid.set 0 cOwned,
    users := [("u_a", mkUser "hsl(10, 70%, 50%)" 0)],
    usedColors := ["hsl(10, 70%, 50%)"] }

/-- A state with one registered session and a fully unclaimed grid. -/
def sFresh : ServerState :=
  { grid := initializeGrid,
    users := [("u_a", mkUser "hsl(10, 70%, 50%)" 0)],
    usedColors := ["hsl(10, 70%, 50%)"] }

/-- A state with two registered sessions whose transports are both no
longer open, so one monitor pass evicts both. -/
def sTwoDead : ServerState :=
  { grid := initializeGrid,
    users := [("u_a", { color := "hsl(10, 70%, 50%)", connectedAt := 0,
                        lastHeartbeat := 0, wsOpen := false }),
              ("u_b", { color := "hsl(20, 70%, 50%)", connectedAt := 0,
                        lastHeartbeat := 0, wsOpen := false })],
    usedColors := ["hsl(10, 70%, 50%)", "hsl(20, 70%, 50%)"] }

/-- The rational 7/2 (the JS number 3.5, exactly representable), given by
its reduced numerator and denominator. -/
def q35 : ℚ := ⟨7, 2, by decide, by decide⟩

/-- A state with one registered session whose transport is open but whose
last heartbeat is far outside the timeout window. -/
def sStale : ServerState :=
  { grid := initializeGrid,
    users := [("u_a", mkUser "hsl(10, 70%, 50%)" 0)],
    usedColors := ["hsl(10, 70%, 50%)"] }

/-! ### Association-list (JS `Map`) lemmas -/

theorem mapLookup_mapSet_self (m : List (String × User)) (k : String)
    (v : User) : mapLookup (mapSet m k v) k = some v := by
  induction m with
  | nil => simp [mapSet, mapLookup]
  | cons p rest ih =>
    obtain ⟨pk, pv⟩ := p
    by_cases hp : pk = k
    · simp [mapSet, hp, mapLookup]
    · simp only [mapSet, hp, if_false]
      simpa [mapLookup, hp] using ih

theorem mapLookup_mapDelete_self (m : List (String × User)) (k : String) :
    mapLookup (mapDelete m k) k = none := by
  unfold mapDelete
  induction m with
  | nil => rfl
  | cons p rest ih =>
    obtain ⟨pk, pv⟩ := p
    by_cases hp : pk = k
    · rw [List.filter_cons_of_neg (by simp [hp])]
      exact ih
    · rw [List.filter_cons_of_pos (by simp [hp])]
      simp only [mapLookup, hp, if_false]
      exact ih

theorem mapLookup_mapDelete_ne (m : List (String × User)) (k k' : String)
    (h : k' ≠ k) : mapLookup (mapDelete m k) k' = mapLookup m k' := by
  unfold mapDelete
  induction m with
  | nil => rfl
  | cons p rest ih =>
    obtain ⟨pk, pv⟩ := p
    by_cases hp : pk = k
    · have hpk' : pk ≠ k' := by
        intro e
        rw [e] at hp
        exact h hp
      rw [List.filter_cons_of_neg (by simp [hp])]
      simp only [mapLookup, hpk', if_false]
      exact ih
    · rw [List.filter_cons_of_pos (by simp [hp])]
      by_cases hp' : pk = k'
      · simp [mapLookup, hp']
      · simp only [mapLookup, hp', if_false]
        exact ih

/-! ### Cell-id arithmetic lemmas -/

theorem ltZero_natCast (i : Nat) : ltZero (.num (i : ℚ)) = false := by
  simp only [ltZero, decide_eq_false_iff_not]
  exact not_lt.mpr (Nat.cast_nonneg i)

theorem geSize_natCast (i : Nat) (h : i < GRID_SIZE) :
    geSize (.num (i : ℚ)) = false := by
  simp only [geSize, decide_eq_false_iff_not]
  exact not_le.mpr (by exact_mod_cast h)

theorem gridIndex_natCast (len i : Nat) (h : i < len) :
    gridIndex len (.num (i : ℚ)) = some i := by
  simp only [gridIndex]
  rw [if_pos]
  · rw [Rat.num_natCast, Int.toNat_natCast]
  · refine ⟨Rat.den_natCast i, ?_, ?_⟩
    · rw [Rat.num_natCast]; exact Int.natCast_nonneg i
    · rw [Rat.num_natCast]; exact_mod_cast h

theorem gridLookup_natCast (grid : List Cell) (i : Nat)
    (h : i < grid.length) : gridLookup grid (.num (i : ℚ)) = grid[i]? := by
  unfold gridLookup
  rw [gridIndex_natCast grid.length i h]
  rfl

/-! ### Grid-preservation lemmas -/

theorem touch_grid (u : String) (now : Nat) (s : ServerState) :
    (touch u now s).grid = s.grid := by
  unfold touch; split <;> rfl

theorem handleDisconnect_grid (u : String) (s : ServerState) :
    ((handleDisconnect u s).1).grid = s.grid := by
  unfold handleDisconnect; split <;> rfl

theorem cleanup_foldl_grid (l : List String) (acc : ServerState × List Event) :
    ((l.foldl (fun acc uid =>
        let r := handleDisconnect uid acc.1
        (r.1, acc.2 ++ r.2)) acc).1).grid = acc.1.grid := by
  induction l generalizing acc with
  | nil => rfl
  | cons u rest ih =>
    rw [List.foldl_cons, ih]
    exact handleDisconnect_grid u acc.1

theorem cleanup_grid (now : Nat) (s : ServerState) :
    ((cleanupDeadConnections now s).1).grid = s.grid :=
  cleanup_foldl_grid (deadIds now s) (s, [])

theorem handleConnection_grid (u : String) (cand : Nat → String) (now : Nat)
    (s : ServerState) : ((handleConnection u cand now s).1).grid = s.grid :=
  rfl

theorem transportClose_grid (u : String) (s : ServerState) :
    (transportClose u s).grid = s.grid := rfl

/-! ### Branch behaviour of the claim resolver -/

theorem handleClaimCell_out_of_range (s : ServerState) (u : String)
    (c : CellId) (now : Nat) (h : ltZero c = true ∨ geSize c = true) :
    handleClaimCell u c now s = .ok (s, [.errMsg "Invalid cell ID"]) := by
  unfold handleClaimCell
  rcases h with h | h <;>
    simp only [h, Bool.true_or, Bool.or_true, if_true]

theorem handleClaimCell_rejects (s : ServerState) (u o : String) (i now : Nat)
    (hlen : s.grid.length = GRID_SIZE) (cell : Cell)
    (hcell : s.grid[i]? = some cell) (hown : cell.ownerId = some o)
    (hne : o ≠ u) (user : User) (hreg : mapLookup s.users u = some user) :
    handleClaimCell u (.num (i : ℚ)) now s =
      .ok (s, [.claimRejected (.num (i : ℚ)) "already_claimed"
                 "Cell already claimed by another user"]) := by
  have hi : i < s.grid.length := (List.getElem?_eq_some.mp hcell).1
  have hiG : i < GRID_SIZE := hlen ▸ hi
  have hlk : gridLookup s.grid (.num (i : ℚ)) = some cell := by
    rw [gridLookup_natCast s.grid i hi]; exact hcell
  unfold handleClaimCell
  rw [ltZero_natCast, geSize_natCast i hiG]
  rw [if_neg (by simp)]
  rw [hlk, hreg]
  dsimp only
  rw [hown]
  rw [if_neg (by simp [hne])]
  rw [if_pos (by simp)]

theorem handleClaimCell_own_noop (s : ServerState) (u : String) (i now : Nat)
    (hlen : s.grid.length = GRID_SIZE) (cell : Cell)
    (hcell : s.grid[i]? = some cell) (hown : cell.ownerId = some u)
    (user : User) (hreg : mapLookup s.users u = some user) :
    handleClaimCell u (.num (i : ℚ)) now s = .ok (s, []) := by
  have hi : i < s.grid.length := (List.getElem?_eq_some.mp hcell).1
  have hiG : i < GRID_SIZE := hlen ▸ hi
  have hlk : gridLookup s.grid (.num (i : ℚ)) = some cell := by
    rw [gridLookup_natCast s.grid i hi]; exact hcell
  unfold handleClaimCell
  rw [ltZero_natCast, geSize_natCast i hiG]
  rw [if_neg (by simp)]
  rw [hlk, hreg]
  dsimp only
  rw [hown]
  rw [if_pos rfl]

theorem handleClaimCell_commits (s : ServerState) (u : String) (i now : Nat)
    (hlen : s.grid.length = GRID_SIZE) (cell : Cell)
    (hcell : s.grid[i]? = some cell) (hown : cell.ownerId = none)
    (user : User) (hreg : mapLookup s.users u = some user) :
    handleClaimCell u (.num (i : ℚ)) now s =
      .ok ({ s with grid := s.grid.set i
                      ({ cell with ownerId := some u,
                                   color := some user.color,
                                   updatedAt := some now }) },
           [.cellUpdated cell.id u user.color now]) := by
  have hi : i < s.grid.length := (List.getElem?_eq_some.mp hcell).1
  have hiG : i < GRID_SIZE := hlen ▸ hi
  have hlk : gridLookup s.grid (.num (i : ℚ)) = some cell := by
    rw [gridLookup_natCast s.grid i hi]; exact hcell
  unfold handleClaimCell
  rw [ltZero_natCast, geSize_natCast i hiG]
  rw [if_neg (by simp)]
  rw [hlk, hreg]
  dsimp only
  rw [hown]
  rw [if_neg (by simp)]
  rw [if_neg (by simp)]
  rw [gridIndex_natCast s.grid.length i hi]

theorem handleClaimCell_throws (s : ServerState) (u : String) (c : CellId)
    (now : Nat) (hlt : ltZero c = false) (hge : geSize c = false)
    (hlk : gridLookup s.grid c = none)
    (user : User) (hreg : mapLookup s.users u = some user) :
    handleClaimCell u c now s = .error [] := by
  unfold handleClaimCell
  rw [hlt, hge]
  rw [if_neg (by simp)]
  rw [hlk, hreg]

/-! ### Owner permanence -/

theorem handleClaimCell_ok_preserves_owner (u : String) (c : CellId)
    (now : Nat) (s s' : ServerState) (ev : List Event) (i : Nat) (o : String)
    (ho : (s.grid[i]?).map Cell.ownerId = some (some o))
    (hok : handleClaimCell u c now s = .ok (s', ev)) :
    (s'.grid[i]?).map Cell.ownerId = some (some o) := by
  unfold handleClaimCell at hok
  split at hok
  · cases hok; exact ho
  · split at hok
    · cases hok; exact ho
    · exact absurd hok (by simp)
    · rename_i cell user hglk hreg
      split at hok
      · cases hok; exact ho
      · split at hok
        · cases hok; exact ho
        · rename_i hnotu hnone
          have hcellnone : cell.ownerId = none := not_not.mp hnone
          dsimp only at hok
          split at hok
          · exact absurd hok (by simp)
          · rename_i idx hidx
            cases hok
            have hcell : s.grid[idx]? = some cell := by
              unfold gridLookup at hglk
              rw [hidx] at hglk
              simpa using hglk
            by_cases hii : i = idx
            · subst hii
              rw [hcell] at ho
              have hcon : cell.ownerId = some o := by simpa using ho
              rw [hcellnone] at hcon
              exact Option.noConfusion hcon
            · have : (s.grid.set idx
                  ({ cell with ownerId := some u, color := some user.color,
                               updatedAt := some now }))[i]? = s.grid[i]? :=
                List.getElem?_set_ne (fun e => hii e.symm)
              dsimp only
              rw [this]
              exact ho

theorem applyOp_preserves_owner (op : Op) (s : ServerState) (i : Nat)
    (o : String) (ho : (s.grid[i]?).map Cell.ownerId = some (some o)) :
    (((applyOp op s).1).grid[i]?).map Cell.ownerId = some (some o) := by
  cases op with
  | connect uid cand now =>
    show (((handleConnection uid cand now s).1).grid[i]?).map Cell.ownerId = _
    rw [handleConnection_grid]
    exact ho
  | message uid msg now =>
    show (((handleMessage uid msg now s).1).grid[i]?).map Cell.ownerId = _
    cases msg with
    | malformed => exact ho
    | join => rw [show (handleMessage uid .join now s).1 = touch uid now s
                    from rfl, touch_grid]; exact ho
    | ping => rw [show (handleMessage uid .ping now s).1 = touch uid now s
                    from rfl, touch_grid]; exact ho
    | unknown t =>
        rw [show (handleMessage uid (.unknown t) now s).1 = touch uid now s
              from rfl, touch_grid]; exact ho
    | claimCell c =>
        have ht : ((touch uid now s).grid[i]?).map Cell.ownerId
            = some (some o) := by rw [touch_grid]; exact ho
        unfold handleMessage
        cases hcc : handleClaimCell uid c now (touch uid now s) with
        | ok p =>
            dsimp only
            rw [hcc]
            exact handleClaimCell_ok_preserves_owner uid c now
              (touch uid now s) p.1 p.2 i o ht (by rw [hcc])
        | error e =>
            dsimp only
            rw [hcc]
            dsimp only
            rw [touch_grid]
            exact ho
  | close uid =>
    show (((handleDisconnect uid s).1).grid[i]?).map Cell.ownerId = _
    rw [handleDisconnect_grid]; exact ho
  | wsError uid =>
    show (((handleDisconnect uid s).1).grid[i]?).map Cell.ownerId = _
    rw [handleDisconnect_grid]; exact ho
  | cleanup now =>
    show (((cleanupDeadConnections now s).1).grid[i]?).map Cell.ownerId = _
    rw [cleanup_grid]; exact ho
  | transportDrop uid =>
    show (((transportClose uid s).grid)[i]?).map Cell.ownerId = _
    rw [transportClose_grid]; exact ho

theorem run_preserves_owner (ops : List Op) (s : ServerState) (i : Nat)
    (o : String) (ho : (s.grid[i]?).map Cell.ownerId = some (some o)) :
    ((run ops s).grid[i]?).map Cell.ownerId = some (some o) := by
  induction ops generalizing s with
  | nil => exact ho
  | cons op rest ih =>
    show ((run rest (applyOp op s).1).grid[i]?).map Cell.ownerId = _
    exact ih _ (applyOp_preserves_owner op s i o ho)

/-! ### Counting, disconnect and cleanup lemmas -/

theorem getConnectedUsersCount_foldl (l : List (String × User)) (n : Nat) :
    l.foldl (fun count p => if p.2.wsOpen then count + 1 else count) n
      = n + (l.filter (fun p => p.2.wsOpen)).length := by
  induction l generalizing n with
  | nil => simp
  | cons p rest ih =>
    by_cases hp : p.2.wsOpen
    · rw [List.foldl_cons, List.filter_cons_of_pos (by simp [hp])]
      rw [if_pos hp, ih]
      simp [Nat.add_comm, Nat.add_assoc, Nat.add_left_comm]
    · rw [List.foldl_cons, List.filter_cons_of_neg (by simp [hp])]
      rw [if_neg hp, ih]

theorem getConnectedUsersCount_eq_openCount (s : ServerState) :
    getConnectedUsersCount s
      = (s.users.filter (fun p => p.2.wsOpen)).length := by
  unfold getConnectedUsersCount
  rw [getConnectedUsersCount_foldl]
  simp

theorem handleDisconnect_registered (s : ServerState) (u : String)
    (user : User) (hreg : mapLookup s.users u = some user) :
    (handleDisconnect u s).1.users = mapDelete s.users u ∧
    (handleDisconnect u s).1.usedColors = setDelete s.usedColors user.color ∧
    (handleDisconnect u s).2
      = [.usersCount (getConnectedUsersCount (handleDisconnect u s).1)] := by
  unfold handleDisconnect
  rw [hreg]
  exact ⟨rfl, rfl, rfl⟩

theorem handleDisconnect_unregistered (s : ServerState) (u : String)
    (hreg : mapLookup s.users u = none) : handleDisconnect u s = (s, []) := by
  unfold handleDisconnect
  rw [hreg]

theorem mapLookup_isSome_of_mem (m : List (String × User))
    (p : String × User) (hp : p ∈ m) : (mapLookup m p.1).isSome = true := by
  induction m with
  | nil => cases hp
  | cons q rest ih =>
    by_cases hq : q.1 = p.1
    · simp [mapLookup, hq]
    · rcases List.mem_cons.mp hp with h | h
      · exact absurd (congrArg Prod.fst h.symm) hq
      · simpa [mapLookup, hq] using ih h

theorem deadIds_registered (now : Nat) (s : ServerState) (u : String)
    (hu : u ∈ deadIds now s) : (mapLookup s.users u).isSome = true := by
  unfold deadIds at hu
  obtain ⟨p, hp, rfl⟩ := List.mem_map.mp hu
  exact mapLookup_isSome_of_mem s.users p (List.mem_of_mem_filter hp)

theorem deadIds_nodup (now : Nat) (s : ServerState)
    (hnd : (s.users.map Prod.fst).Nodup) : (deadIds now s).Nodup := by
  unfold deadIds
  exact hnd.sublist ((List.filter_sublist s.users).map Prod.fst)

theorem cleanup_fold_events (l : List String) (s : ServerState)
    (ev0 : List Event)
    (hall : ∀ u ∈ l, (mapLookup s.users u).isSome = true) (hnd : l.Nodup) :
    ∃ counts : List Nat,
      (l.foldl (fun acc uid =>
          let r := handleDisconnect uid acc.1
          (r.1, acc.2 ++ r.2)) (s, ev0)).2
        = ev0 ++ counts.map Event.usersCount ∧
      counts.length = l.length ∧
      (l ≠ [] → counts.getLast? = some (getConnectedUsersCount
        (l.foldl (fun acc uid =>
          let r := handleDisconnect uid acc.1
          (r.1, acc.2 ++ r.2)) (s, ev0)).1)) := by
  induction l generalizing s ev0 with
  | nil => exact ⟨[], by simp, rfl, by simp⟩
  | cons u rest ih =>
    obtain ⟨user, hu⟩ :=
      Option.isSome_iff_exists.mp (hall u (List.mem_cons_self u rest))
    obtain ⟨husers, -, hev⟩ := handleDisconnect_registered s u user hu
    have hfc : (u :: rest).foldl (fun acc uid =>
          let r := handleDisconnect uid acc.1
          (r.1, acc.2 ++ r.2)) (s, ev0)
        = rest.foldl (fun acc uid =>
            let r := handleDisconnect uid acc.1
            (r.1, acc.2 ++ r.2))
          ((handleDisconnect u s).1,
           ev0 ++ [.usersCount (getConnectedUsersCount
             (handleDisconnect u s).1)]) := by
      rw [List.foldl_cons]
      congr 1
      dsimp only
      rw [hev]
    have hrest : ∀ v ∈ rest,
        (mapLookup (handleDisconnect u s).1.users v).isSome = true := by
      intro v hv
      have hvne : v ≠ u := by
        intro e
        subst e
        exact (List.nodup_cons.mp hnd).1 hv
      rw [husers, mapLookup_mapDelete_ne s.users u v hvne]
      exact hall v (List.mem_cons_of_mem u hv)
    obtain ⟨counts', hev', hlen', hlast'⟩ :=
      ih (handleDisconnect u s).1
        (ev0 ++ [.usersCount (getConnectedUsersCount (handleDisconnect u s).1)])
        hrest (List.nodup_cons.mp hnd).2
    refine ⟨getConnectedUsersCount (handleDisconnect u s).1 :: counts', ?_, ?_, ?_⟩
    · rw [hfc, hev']
      simp
    · simpa using hlen'
    · intro _
      rw [hfc]
      rcases List.eq_nil_or_concat counts' with hc | hconcat
      · subst hc
        have : rest = [] := List.length_eq_zero.mp hlen'.symm
        subst this
        simp
      · have hcne : counts' ≠ [] := by
          intro e
          rw [e] at hconcat
          obtain ⟨L, b, habs⟩ := hconcat
          exact absurd habs.symm (List.concat_ne_nil b L)
        have hrne : rest ≠ [] := by
          intro e
          subst e
          exact hcne (List.length_eq_zero.mp hlen')
        obtain ⟨c, cs, hccs⟩ := List.exists_cons_of_ne_nil hcne
        rw [hccs, List.getLast?_cons_cons]
        rw [← hccs]
        exact hlast' hrne

/-! ### Color-allocation loop -/

theorem genColorGo_spec (used : List String) (cand : Nat → String) :
    ∀ fuel k0 : Nat, ∃ d : Nat, d ≤ fuel ∧
      genColorGo used cand k0 fuel = cand (k0 + d) ∧
      (∀ j, k0 ≤ j → j < k0 + d → cand j ∈ used) ∧
      (cand (k0 + d) ∈ used → d = fuel) := by
  intro fuel
  induction fuel with
  | zero =>
    intro k0
    refine ⟨0, Nat.le_refl 0, by simp [genColorGo], ?_, fun _ => rfl⟩
    intro j h1 h2
    exfalso
    omega
  | succ fuel ih =>
    intro k0
    by_cases hc : cand k0 ∈ used
    · obtain ⟨d, hd, heq, hall, hlast⟩ := ih (k0 + 1)
      refine ⟨d + 1, by omega, ?_, ?_, ?_⟩
      · rw [genColorGo, if_pos hc, heq]
        congr 1
        omega
      · intro j h1 h2
        rcases Nat.eq_or_lt_of_le h1 with h | h
        · rwa [← h]
        · exact hall j (by omega) (by omega)
      · intro hmem
        have heqc : k0 + (d + 1) = k0 + 1 + d := by omega
        rw [heqc] at hmem
        rw [hlast hmem]
    · refine ⟨0, Nat.zero_le _, ?_, ?_, ?_⟩
      · rw [genColorGo, if_neg hc, Nat.add_zero]
      · intro j h1 h2
        exact absurd h2 (by omega)
      · intro hmem
        rw [Nat.add_zero] at hmem
        exact absurd hmem hc

/-! ### Heartbeat refresh -/

theorem touch_lookup_self (u : String) (now : Nat) (s : ServerState)
    (user : User) (hreg : mapLookup s.users u = some user) :
    mapLookup (touch u now s).users u
      = some { user with lastHeartbeat := now } := by
  unfold touch
  rw [hreg]
  exact mapLookup_mapSet_self s.users u _

/-! ### Preservation of the all-or-nothing cell invariant -/

theorem initializeGrid_inv : ∀ c ∈ initializeGrid, cellInv c := by
  intro c hc
  simp only [initializeGrid, List.mem_map, List.mem_range] at hc
  obtain ⟨i, -, rfl⟩ := hc
  exact ⟨by simp, by simp⟩

theorem handleClaimCell_ok_preserves_inv (u : String) (c : CellId)
    (now : Nat) (s s' : ServerState) (ev : List Event)
    (hinv : ∀ cc ∈ s.grid, cellInv cc)
    (hok : handleClaimCell u c now s = .ok (s', ev)) :
    ∀ cc ∈ s'.grid, cellInv cc := by
  unfold handleClaimCell at hok
  split at hok
  · cases hok; exact hinv
  · split at hok
    · cases hok; exact hinv
    · exact absurd hok (by simp)
    · split at hok
      · cases hok; exact hinv
      · split at hok
        · cases hok; exact hinv
        · dsimp only at hok
          split at hok
          · exact absurd hok (by simp)
          · cases hok
            intro cc hcc
            rcases List.mem_or_eq_of_mem_set hcc with h | h
            · exact hinv cc h
            · subst h
              exact ⟨by simp, by simp⟩

theorem applyOp_preserves_inv (op : Op) (s : ServerState)
    (hinv : ∀ cc ∈ s.grid, cellInv cc) :
    ∀ cc ∈ ((applyOp op s).1).grid, cellInv cc := by
  cases op with
  | connect uid cand now =>
    show ∀ cc ∈ ((handleConnection uid cand now s).1).grid, cellInv cc
    rw [handleConnection_grid]; exact hinv
  | message uid msg now =>
    show ∀ cc ∈ ((handleMessage uid msg now s).1).grid, cellInv cc
    cases msg with
    | malformed => exact hinv
    | join => rw [show (handleMessage uid .join now s).1 = touch uid now s
                    from rfl, touch_grid]; exact hinv
    | ping => rw [show (handleMessage uid .ping now s).1 = touch uid now s
                    from rfl, touch_grid]; exact hinv
    | unknown t =>
        rw [show (handleMessage uid (.unknown t) now s).1 = touch uid now s
              from rfl, touch_grid]; exact hinv
    | claimCell c =>
        have ht : ∀ cc ∈ (touch uid now s).grid, cellInv cc := by
          rw [touch_grid]; exact hinv
        unfold handleMessage
        cases hcc : handleClaimCell uid c now (touch uid now s) with
        | ok p =>
            dsimp only
            rw [hcc]
            exact handleClaimCell_ok_preserves_inv uid c now
              (touch uid now s) p.1 p.2 ht (by rw [hcc])
        | error e =>
            dsimp only
            rw [hcc]
            dsimp only
            rw [touch_grid]
            exact hinv
  | close uid =>
    show ∀ cc ∈ ((handleDisconnect uid s).1).grid, cellInv cc
    rw [handleDisconnect_grid]; exact hinv
  | wsError uid =>
    show ∀ cc ∈ ((handleDisconnect uid s).1).grid, cellInv cc
    rw [handleDisconnect_grid]; exact hinv
  | cleanup now =>
    show ∀ cc ∈ ((cleanupDeadConnections now s).1).grid, cellInv cc
    rw [cleanup_grid]; exact hinv
  | transportDrop uid =>
    show ∀ cc ∈ (transportClose uid s).grid, cellInv cc
    rw [transportClose_grid]; exact hinv

theorem run_preserves_inv (ops : List Op) (s : ServerState)
    (hinv : ∀ cc ∈ s.grid, cellInv cc) :
    ∀ cc ∈ (run ops s).grid, cellInv cc := by
  induction ops generalizing s with
  | nil => exact hinv
  | cons op rest ih =>
    show ∀ cc ∈ (run rest (applyOp op s).1).grid, cellInv cc
    exact ih _ (applyOp_preserves_inv op s hinv)

/-! ### The claims -/

/-- Claim C1: once a cell's owner is non-null it never changes again
under any sequence of operations (connections, messages including
claims, disconnects, transport drops, cleanup passes), and any claim on
that cell by a registered session other than the owner is answered with
a unicast `claim_rejected` carrying reason `already_claimed`, with the
state unchanged and no broadcast emitted. -/
theorem claim_ownership_fcfs_permanent (s : ServerState) (i : Nat)
    (o : String) (hlen : s.grid.length = GRID_SIZE)
    (ho : (s.grid[i]?).map Cell.ownerId = some (some o)) :
    (∀ ops : List Op,
      ((run ops s).grid[i]?).map Cell.ownerId = some (some o))
    ∧ (∀ (u : String) (user : User) (now : Nat), u ≠ o →
        mapLookup s.users u = some user →
        handleClaimCell u (.num (i : ℚ)) now s =
          .ok (s, [.claimRejected (.num (i : ℚ)) "already_claimed"
                     "Cell already claimed by another user"])) := by
  constructor
  · intro ops
    exact run_preserves_owner ops s i o ho
  · intro u user now hne hreg
    obtain ⟨cell, hcell⟩ : ∃ cell, s.grid[i]? = some cell := by
      cases h : s.grid[i]? with
      | none => rw [h] at ho; simp at ho
      | some cell => exact ⟨cell, rfl⟩
    have hown : cell.ownerId = some o := by
      rw [hcell] at ho
      simpa using ho
    exact handleClaimCell_rejects s u o i now hlen cell hcell hown
      hne.symm user hreg

/-- Witness for C1 at a concrete state: cell 0 owned by `u_a`, a claim
by registered `u_b` is rejected and ownership survives a cleanup pass. -/
theorem claim_ownership_fcfs_permanent_witness :
    sOwned.grid.length = GRID_SIZE ∧
    (sOwned.grid[0]?).map Cell.ownerId = some (some "u_a") ∧
    "u_b" ≠ "u_a" ∧
    mapLookup sOwned.users "u_b" = some (mkUser "hsl(20, 70%, 50%)" 0) ∧
    ((run [Op.cleanup 100000] sOwned).grid[0]?).map Cell.ownerId
      = some (some "u_a") ∧
    handleClaimCell "u_b" (.num ((0 : Nat) : ℚ)) 7 sOwned =
      .ok (sOwned, [.claimRejected (.num ((0 : Nat) : ℚ)) "already_claimed"
                      "Cell already claimed by another user"]) := by
  have h := claim_ownership_fcfs_permanent sOwned 0 "u_a" (by decide) rfl
  exact ⟨by decide, rfl, by decide, rfl, h.1 [Op.cleanup 100000],
         h.2 "u_b" (mkUser "hsl(20, 70%, 50%)" 0) 7 (by decide) rfl⟩

/-- Claim C4: a claim by a registered session on an in-range, unowned
cell commits: the cell becomes owned by that session with the session's
color and the current time, a `cell_updated` broadcast carrying exactly
those values is emitted, and nothing else changes. -/
theorem claim_unowned_cell_commits (s : ServerState) (u : String)
    (user : User) (i now : Nat) (hlen : s.grid.length = GRID_SIZE)
    (hreg : mapLookup s.users u = some user) (cell : Cell)
    (hcell : s.grid[i]? = some cell) (hown : cell.ownerId = none)
    (hid : cell.id = i) :
    handleClaimCell u (.num (i : ℚ)) now s =
      .ok ({ s with grid := s.grid.set i
                      ({ cell with ownerId := some u,
                                   color := some user.color,
                                   updatedAt := some now }) },
           [.cellUpdated i u user.color now]) := by
  rw [handleClaimCell_commits s u i now hlen cell hcell hown user hreg, hid]

/-- Witness for C4 at a concrete state: registered `u_a` claims the
unowned cell 3 and the commit plus broadcast happen. -/
theorem claim_unowned_cell_commits_witness :
    sFresh.grid.length = GRID_SIZE ∧
    mapLookup sFresh.users "u_a" = some (mkUser "hsl(10, 70%, 50%)" 0) ∧
    sFresh.grid[3]? = some
      ({ id := 3, ownerId := none, color := none, updatedAt := none }) ∧
    handleClaimCell "u_a" (.num ((3 : Nat) : ℚ)) 7 sFresh =
      .ok ({ sFresh with grid := sFresh.grid.set 3
                           ({ id := 3, ownerId := some "u_a",
                              color := some "hsl(10, 70%, 50%)",
                              updatedAt := some 7 }) },
           [.cellUpdated 3 "u_a" "hsl(10, 70%, 50%)" 7]) := by
  refine ⟨by decide, rfl, rfl, ?_⟩
  exact claim_unowned_cell_commits sFresh "u_a" (mkUser "hsl(10, 70%, 50%)" 0)
    3 7 (by decide) rfl
    ({ id := 3, ownerId := none, color := none, updatedAt := none })
    rfl rfl rfl

/-- Claim C5: a registered session re-claiming a cell it already owns is
a silent no-op: the state is returned unchanged and the emitted event
list is empty (no broadcast, no error, no rejection). -/
theorem reclaim_own_cell_silent_noop (s : ServerState) (u : String)
    (user : User) (i now : Nat) (hlen : s.grid.length = GRID_SIZE)
    (hreg : mapLookup s.users u = some user)
    (ho : (s.grid[i]?).map Cell.ownerId = some (some u)) :
    handleClaimCell u (.num (i : ℚ)) now s = .ok (s, []) := by
  obtain ⟨cell, hcell⟩ : ∃ cell, s.grid[i]? = some cell := by
    cases h : s.grid[i]? with
    | none => rw [h] at ho; simp at ho
    | some cell => exact ⟨cell, rfl⟩
  have hown : cell.ownerId = some u := by
    rw [hcell] at ho
    simpa using ho
  exact handleClaimCell_own_noop s u i now hlen cell hcell hown user hreg

/-- Witness for C5 at a concrete state: `u_a` owns cell 0 and re-claims
it; nothing happens and nothing is emitted. -/
theorem reclaim_own_cell_silent_noop_witness :
    sSelf.grid.length = GRID_SIZE ∧
    mapLookup sSelf.users "u_a" = some (mkUser "hsl(10, 70%, 50%)" 0) ∧
    (sSelf.grid[0]?).map Cell.ownerId = some (some "u_a") ∧
    handleClaimCell "u_a" (.num ((0 : Nat) : ℚ)) 7 sSelf = .ok (sSelf, []) :=
  ⟨by decide, rfl, rfl,
   reclaim_own_cell_silent_noop sSelf "u_a" (mkUser "hsl(10, 70%, 50%)" 0)
     0 7 (by decide) rfl rfl⟩

/-- Claim C6: a claim whose cell index fails the bounds guard (negative
or at least `GRID_SIZE`) is answered with a unicast error only; the
state is unchanged and the single emitted event is not a broadcast. -/
theorem claim_out_of_range_invalid_no_change (s : ServerState) (u : String)
    (c : CellId) (now : Nat) (h : ltZero c = true ∨ geSize c = true) :
    handleClaimCell u c now s = .ok (s, [.errMsg "Invalid cell ID"])
    ∧ (Event.errMsg "Invalid cell ID").isBroadcast = false :=
  ⟨handleClaimCell_out_of_range s u c now h, rfl⟩

/-- Witness for C6 at the claim's two named indices, -1 and
`GRID_SIZE` itself. -/
theorem claim_out_of_range_invalid_no_change_witness :
    (ltZero (.num (-1 : ℚ)) = true ∨ geSize (.num (-1 : ℚ)) = true) ∧
    (ltZero (.num ((400 : Nat) : ℚ)) = true
      ∨ geSize (.num ((400 : Nat) : ℚ)) = true) ∧
    handleClaimCell "u_a" (.num (-1 : ℚ)) 7 sFresh
      = .ok (sFresh, [.errMsg "Invalid cell ID"]) ∧
    handleClaimCell "u_a" (.num ((400 : Nat) : ℚ)) 7 sFresh
      = .ok (sFresh, [.errMsg "Invalid cell ID"]) := by
  refine ⟨Or.inl (by decide), Or.inr (by decide), ?_, ?_⟩
  · exact (claim_out_of_range_invalid_no_change sFresh "u_a"
      (.num (-1 : ℚ)) 7 (Or.inl (by decide))).1
  · exact (claim_out_of_range_invalid_no_change sFresh "u_a"
      (.num ((400 : Nat) : ℚ)) 7 (Or.inr (by decide))).1

/-- Claim C7: in every state reachable from startup, every cell is fully
unclaimed or fully claimed: its owner is null exactly when its color is
null and exactly when its update time is null. -/
theorem cells_fully_claimed_or_fully_unclaimed (ops : List Op) (c : Cell)
    (hc : c ∈ (run ops initState).grid) :
    (c.ownerId = none ↔ c.color = none)
    ∧ (c.ownerId = none ↔ c.updatedAt = none) :=
  run_preserves_inv ops initState initializeGrid_inv c hc

/-- Witness for C7: the first cell of the freshly initialized grid. -/
theorem cells_fully_claimed_or_fully_unclaimed_witness :
    ({ id := 0, ownerId := none, color := none, updatedAt := none } : Cell)
      ∈ (run [] initState).grid ∧
    ((({ id := 0, ownerId := none, color := none,
         updatedAt := none } : Cell).ownerId = none
      ↔ ({ id := 0, ownerId := none, color := none,
           updatedAt := none } : Cell).color = none)
    ∧ (({ id := 0, ownerId := none, color := none,
          updatedAt := none } : Cell).ownerId = none
      ↔ ({ id := 0, ownerId := none, color := none,
           updatedAt := none } : Cell).updatedAt = none)) :=
  ⟨by decide, cells_fully_claimed_or_fully_unclaimed [] _ (by decide)⟩

/-- Claim C8: the color-allocation loop always returns a color after at
most 50 draws: the returned color is the k-th candidate for some k < 50,
every earlier candidate collided with the in-use set, and the returned
candidate can itself collide only when the retry bound is exhausted
(k = 49), in which case the colliding candidate is accepted. -/
theorem generateNiceColor_always_returns_bounded (used : List String)
    (cand : Nat → String) :
    ∃ k : Nat, k < 50 ∧ generateNiceColor used cand = cand k ∧
      (∀ j, j < k → cand j ∈ used) ∧ (cand k ∈ used → k = 49) := by
  obtain ⟨d, hd, heq, hall, hlast⟩ := genColorGo_spec used cand 49 0
  rw [Nat.zero_add] at heq
  refine ⟨d, by omega, heq, ?_, ?_⟩
  · intro j hj
    exact hall j (Nat.zero_le j) (by omega)
  · intro hm
    exact hlast (by rwa [Nat.zero_add])

/-- Claim C9: `handleDisconnect` (the registry's unregister) is
idempotent: the first call on a registered session removes it, deletes
its color from the in-use set and emits exactly one `users_count`
broadcast, while a second call for the same id changes nothing and
emits nothing. -/
theorem unregister_idempotent (s : ServerState) (u : String) (user : User)
    (hreg : mapLookup s.users u = some user) :
    (handleDisconnect u s).1.users = mapDelete s.users u ∧
    (handleDisconnect u s).1.usedColors = setDelete s.usedColors user.color ∧
    (handleDisconnect u s).2
      = [.usersCount (getConnectedUsersCount (handleDisconnect u s).1)] ∧
    handleDisconnect u (handleDisconnect u s).1
      = ((handleDisconnect u s).1, []) := by
  obtain ⟨h1, h2, h3⟩ := handleDisconnect_registered s u user hreg
  refine ⟨h1, h2, h3, ?_⟩
  apply handleDisconnect_unregistered
  rw [h1]
  exact mapLookup_mapDelete_self s.users u

/-- Witness for C9 at a concrete state with one registered session. -/
theorem unregister_idempotent_witness :
    mapLookup sFresh.users "u_a" = some (mkUser "hsl(10, 70%, 50%)" 0) ∧
    ((handleDisconnect "u_a" sFresh).1.users
        = mapDelete sFresh.users "u_a" ∧
      (handleDisconnect "u_a" sFresh).1.usedColors
        = setDelete sFresh.usedColors (mkUser "hsl(10, 70%, 50%)" 0).color ∧
      (handleDisconnect "u_a" sFresh).2
        = [.usersCount (getConnectedUsersCount
            (handleDisconnect "u_a" sFresh).1)] ∧
      handleDisconnect "u_a" (handleDisconnect "u_a" sFresh).1
        = ((handleDisconnect "u_a" sFresh).1, [])) :=
  ⟨rfl, unregister_idempotent sFresh "u_a" (mkUser "hsl(10, 70%, 50%)" 0) rfl⟩

/-- Counterexample to claim C2 as stated: a cleanup pass that evicts two
sessions emits two `users_count` broadcasts (one per eviction), not
exactly one. -/
theorem cleanup_single_broadcast_cex :
    (deadIds 100 sTwoDead).length = 2 ∧
    (cleanupDeadConnections 100 sTwoDead).2
      = [.usersCount 0, .usersCount 0] ∧
    ((cleanupDeadConnections 100 sTwoDead).2.filter
        (fun e => e.isBroadcast)).length ≠ 1 :=
  ⟨rfl, rfl, by decide⟩

/-- Claim C2 as amended: a Liveness Monitor pass that evicts k ≥ 1
sessions emits exactly k `users_count` broadcasts — one per eviction —
and the last of them reflects the post-eviction count. -/
theorem cleanup_one_broadcast_per_eviction (now : Nat) (s : ServerState)
    (hnd : (s.users.map Prod.fst).Nodup) (hne : deadIds now s ≠ []) :
    ∃ counts : List Nat,
      (cleanupDeadConnections now s).2 = counts.map Event.usersCount ∧
      counts.length = (deadIds now s).length ∧
      counts.getLast? = some (getConnectedUsersCount
        (cleanupDeadConnections now s).1) := by
  obtain ⟨counts, hev, hlen, hlast⟩ := cleanup_fold_events (deadIds now s) s []
    (fun u hu => deadIds_registered now s u hu) (deadIds_nodup now s hnd)
  refine ⟨counts, ?_, hlen, ?_⟩
  · unfold cleanupDeadConnections
    rw [hev]
    simp
  · exact hlast hne

/-- Witness for the amended C2 at the two-dead-session state. -/
theorem cleanup_one_broadcast_per_eviction_witness :
    (sTwoDead.users.map Prod.fst).Nodup ∧
    deadIds 100 sTwoDead ≠ [] ∧
    (∃ counts : List Nat,
      (cleanupDeadConnections 100 sTwoDead).2
        = counts.map Event.usersCount ∧
      counts.length = (deadIds 100 sTwoDead).length ∧
      counts.getLast? = some (getConnectedUsersCount
        (cleanupDeadConnections 100 sTwoDead).1)) :=
  ⟨by decide, by decide,
   cleanup_one_broadcast_per_eviction 100 sTwoDead (by decide) (by decide)⟩

/-- Counterexample to claim C3 as stated: a session silent for longer
than the timeout window but with an open transport is still counted by
`getConnectedUsersCount`, so the reported count differs from the count
of open-and-within-window sessions. -/
theorem liveCount_timeout_window_cex :
    getConnectedUsersCount sStale = 1 ∧
    specLiveCount 100000 sStale = 0 ∧
    getConnectedUsersCount sStale ≠ specLiveCount 100000 sStale :=
  ⟨rfl, rfl, by decide⟩

/-- Claim C3 as amended: the live count reported to clients is the
number of registered sessions whose transport-handle is currently open;
the liveness window is not consulted. -/
theorem liveCount_counts_open_transports (s : ServerState) :
    getConnectedUsersCount s
      = (s.users.filter (fun p => p.2.wsOpen)).length :=
  getConnectedUsersCount_eq_openCount s

/-- Counterexample to claim C10 as stated: the string cellId `"3"` is
not an integer and passes neither bounds guard (its numeric coercion is
3), yet JS array indexing resolves the canonical key `"3"` to cell 3,
so the handler of a registered session commits the claim and broadcasts
`cell_updated` — the requester does not get `Invalid message format`
and the grid changes. -/
theorem claim_cell_string_id_commits_cex :
    (∀ k : Nat, CellId.str "3" (some 3) ≠ CellId.num (k : ℚ)) ∧
    ltZero (.str "3" (some 3)) = false ∧
    geSize (.str "3" (some 3)) = false ∧
    (handleMessage "u_a" (.claimCell (.str "3" (some 3))) 7 sFresh).2
      = [.cellUpdated 3 "u_a" "hsl(10, 70%, 50%)" 7] ∧
    (handleMessage "u_a" (.claimCell (.str "3" (some 3))) 7 sFresh).2
      ≠ [.errMsg "Invalid message format"] ∧
    (((handleMessage "u_a" (.claimCell (.str "3" (some 3))) 7
        sFresh).1.grid[3]?).map Cell.ownerId) = some (some "u_a") ∧
    (handleMessage "u_a" (.claimCell (.str "3" (some 3))) 7 sFresh).1.grid
      ≠ sFresh.grid :=
  ⟨fun k h => CellId.noConfusion h, rfl, rfl, rfl, by decide, rfl, by decide⟩

/-- Claim C10 as amended: a `claim_cell` frame from a registered session
whose cellId passes neither bounds guard and whose array lookup yields
no cell (a missing/undefined cellId, a fractional number such as 3.5,
or a string that is not the canonical decimal key of an in-range index
— unlike `"3"`, which indexes the grid and commits) makes the handler
throw on the missing cell; the exception is caught by the message
handler, so the requester receives `Invalid message format` rather than
`Invalid cell ID`, and the grid is unchanged. -/
theorem claim_cell_malformed_id_error_format (s : ServerState) (u : String)
    (user : User) (now : Nat) (c : CellId)
    (hreg : mapLookup s.users u = some user)
    (hlt : ltZero c = false) (hge : geSize c = false)
    (hlk : gridLookup s.grid c = none) :
    handleMessage u (.claimCell c) now s
      = (touch u now s, [.errMsg "Invalid message format"])
    ∧ (touch u now s).grid = s.grid := by
  constructor
  · have hlk' : gridLookup (touch u now s).grid c = none := by
      have hg : (touch u now s).grid = s.grid := touch_grid u now s
      unfold gridLookup at hlk ⊢
      rw [hg]
      exact hlk
    have hthrow : handleClaimCell u c now (touch u now s) = .error [] :=
      handleClaimCell_throws (touch u now s) u c now hlt hge hlk' _
        (touch_lookup_self u now s user hreg)
    unfold handleMessage
    dsimp only
    rw [hthrow]
    rfl
  · exact touch_grid u now s

/-- Witness for the amended C10 at a concrete state, at three lookup-
missing ids: a missing (`undefined`) cellId, the fractional 3.5, and a
non-numeric string. -/
theorem claim_cell_malformed_id_error_format_witness :
    mapLookup sFresh.users "u_a" = some (mkUser "hsl(10, 70%, 50%)" 0) ∧
    ltZero CellId.undef = false ∧ geSize CellId.undef = false ∧
    gridLookup sFresh.grid CellId.undef = none ∧
    ltZero (.num q35) = false ∧ geSize (.num q35) = false ∧
    gridLookup sFresh.grid (.num q35) = none ∧
    ltZero (.str "abc" none) = false ∧ geSize (.str "abc" none) = false ∧
    gridLookup sFresh.grid (.str "abc" none) = none ∧
    handleMessage "u_a" (.claimCell .undef) 7 sFresh
      = (touch "u_a" 7 sFresh, [.errMsg "Invalid message format"]) ∧
    handleMessage "u_a" (.claimCell (.num q35)) 7 sFresh
      = (touch "u_a" 7 sFresh, [.errMsg "Invalid message format"]) ∧
    handleMessage "u_a" (.claimCell (.str "abc" none)) 7 sFresh
      = (touch "u_a" 7 sFresh, [.errMsg "Invalid message format"]) := by
  refine ⟨rfl, rfl, rfl, rfl, by decide, by decide, by decide,
          rfl, rfl, rfl, ?_, ?_, ?_⟩
  · exact (claim_cell_malformed_id_error_format sFresh "u_a"
      (mkUser "hsl(10, 70%, 50%)" 0) 7 .undef rfl rfl rfl rfl).1
  · exact (claim_cell_malformed_id_error_format sFresh "u_a"
      (mkUser "hsl(10, 70%, 50%)" 0) 7 (.num q35) rfl (by decide)
      (by decide) (by decide)).1
  · exact (claim_cell_malformed_id_error_format sFresh "u_a"
      (mkUser "hsl(10, 70%, 50%)" 0) 7 (.str "abc" none) rfl rfl rfl rfl).1

end Grid
